import Mathlib

/-!
# Verification of the brane example scripts

A shallow embedding of the two Python example scripts of the repository:

* `examples/help/help.py` — an operation runner dispatching on a command
  (`cp`, `ls`, `cat`, `stall`), reading its inputs from environment
  variables and printing one YAML result record `{"output": ...}`;
* `examples/tutorial/2/run.py` — a base64 `encode`/`decode` runner reading
  its input from the `INPUT` environment variable.

Byte strings are modelled as `List Nat` (each element a byte value),
UTF-8 and base64 are implemented explicitly, subprocess results are an
oracle `List String → ProcResult` giving the captured stdout/stderr bytes
of an external command line, and the wall clock used by `stall` is an
oracle `Nat → ℚ` giving the value of successive `time.time()` samples.
-/

namespace Brane

/-! ## UTF-8 encoding and decoding

`str.encode("utf-8")` and `bytes.decode("utf-8")` from Python, over
`List Char` (code points) and `List Nat` (bytes). The decoder is strict:
it rejects continuation-byte errors, overlong forms, surrogates and
out-of-range code points, as CPython's strict codec does. -/

/-- The UTF-8 encoding of a single code point (Python `chr.encode("utf-8")`). -/
def utf8EncodeChar (c : Char) : List Nat :=
  let n := c.toNat
  if n < 0x80 then [n]
  else if n < 0x800 then [0xC0 + n / 64, 0x80 + n % 64]
  else if n < 0x10000 then [0xE0 + n / 4096, 0x80 + n / 64 % 64, 0x80 + n % 64]
  else [0xF0 + n / 262144, 0x80 + n / 4096 % 64, 0x80 + n / 64 % 64, 0x80 + n % 64]

/-- The UTF-8 encoding of a string as a byte list (Python `s.encode("utf-8")`). -/
def utf8Encode (s : List Char) : List Nat :=
  s.flatMap utf8EncodeChar

/-- Decoder state: either expecting a lead byte, or inside a multi-byte
sequence with partial code point `acc`, `need` continuation bytes still
expected, and `minv` the smallest code point the sequence may validly
produce (the overlong check). -/
inductive Utf8State where
  | lead
  | cont (acc need minv : Nat)

/-- Strict UTF-8 decoding, one byte at a time. It rejects stray or missing
continuation bytes, overlong forms, surrogates and out-of-range code
points, as CPython's strict codec does. -/
def utf8Run : Utf8State → List Nat → Option (List Char)
  | .lead, [] => some []
  | .cont _ _ _, [] => none
  | .lead, b :: rest =>
      if b < 0x80 then (Char.ofNat b :: ·) <$> utf8Run .lead rest
      else if b < 0xC2 then none
      else if b < 0xE0 then utf8Run (.cont (b - 0xC0) 1 0x80) rest
      else if b < 0xF0 then utf8Run (.cont (b - 0xE0) 2 0x800) rest
      else if b < 0xF5 then utf8Run (.cont (b - 0xF0) 3 0x10000) rest
      else none
  | .cont acc need minv, b :: rest =>
      if 0x80 ≤ b ∧ b < 0xC0 then
        if need = 1 then
          if minv ≤ acc * 64 + (b - 0x80) ∧
              ¬(0xD800 ≤ acc * 64 + (b - 0x80) ∧ acc * 64 + (b - 0x80) < 0xE000) ∧
              acc * 64 + (b - 0x80) < 0x110000 then
            (Char.ofNat (acc * 64 + (b - 0x80)) :: ·) <$> utf8Run .lead rest
          else none
        else utf8Run (.cont (acc * 64 + (b - 0x80)) (need - 1) minv) rest
      else none

/-- Strict UTF-8 decoding of a byte list (Python `b.decode("utf-8")`);
`none` models a raised `UnicodeDecodeError`. -/
def utf8DecodeBytes (l : List Nat) : Option (List Char) := utf8Run .lead l

/-! ## Base64 (Python `base64.b64encode` / `base64.b64decode`) -/

/-- The base64 alphabet. -/
def b64Alphabet : List Char :=
  "ABCDEFGHIJKLMNOPQRSTUVWXYZabcdefghijklmnopqrstuvwxyz0123456789+/".toList

/-- The base64 digit for a six-bit value. -/
def sextet (k : Nat) : Char := b64Alphabet.getD k 'A'

/-- The six-bit value of a base64 digit; `none` for a character outside the
alphabet. -/
def sextetVal (c : Char) : Option Nat := b64Alphabet.findIdx? (· == c)

/-- Base64-encode a byte list into characters, with `=` padding
(Python `base64.b64encode`). -/
def b64EncodeBytes : List Nat → List Char
  | [] => []
  | [a] => [sextet (a / 4), sextet (a % 4 * 16), '=', '=']
  | [a, b] => [sextet (a / 4), sextet (a % 4 * 16 + b / 16), sextet (b % 16 * 4), '=']
  | a :: b :: c :: rest =>
      sextet (a / 4) :: sextet (a % 4 * 16 + b / 16) ::
      sextet (b % 16 * 4 + c / 64) :: sextet (c % 64) :: b64EncodeBytes rest

/-- Base64-decode a character list into bytes (Python `base64.b64decode`);
`none` models a raised `binascii.Error`. -/
def b64DecodeChars : List Char → Option (List Nat)
  | [] => some []
  | a :: b :: c :: d :: rest =>
    if c = '=' ∧ d = '=' ∧ rest = [] then do
      let va ← sextetVal a
      let vb ← sextetVal b
      pure [va * 4 + vb / 16]
    else if d = '=' ∧ rest = [] then do
      let va ← sextetVal a
      let vb ← sextetVal b
      let vc ← sextetVal c
      pure [va * 4 + vb / 16, vb % 16 * 16 + vc / 4]
    else do
      let va ← sextetVal a
      let vb ← sextetVal b
      let vc ← sextetVal c
      let vd ← sextetVal d
      let bytes ← b64DecodeChars rest
      pure ((va * 4 + vb / 16) :: (vb % 16 * 16 + vc / 4) :: (vc % 4 * 64 + vd) :: bytes)
  | _ => none

/-! ## The encode/decode runner (`examples/tutorial/2/run.py`) -/

/-- `run.py`'s `encode(s)`: UTF-8-encode `s`, base64-encode the bytes;
the base64 output is ASCII, so its `decode("utf-8")` is char-for-char. -/
def encode (s : String) : String :=
  String.mk (b64EncodeBytes (utf8Encode s.toList))

/-- `s.replace("\n", "")` from `run.py`'s `decode`. -/
def stripNewlines (s : String) : String :=
  String.mk (s.toList.filter (fun c => c != '\n'))

/-- `run.py`'s `decode(s)`: strip newlines, base64-decode, UTF-8-decode;
`none` models the uncaught `binascii.Error` / `UnicodeDecodeError`. -/
def decode (s : String) : Option String := do
  let bytes ← b64DecodeChars (stripNewlines s).toList
  let chars ← utf8DecodeBytes bytes
  pure (String.mk chars)

/-! ## The operation runner (`examples/help/help.py`) and both `__main__` blocks -/

/-- The captured stdout and stderr byte streams of a finished subprocess:
the two values returned by `p.communicate()`. -/
structure ProcResult where
  out : List Nat
  err : List Nat

/-- A Python value as it flows into `stall`: the parsed integer, or the
raw environment string after the `int(...)` parse failed. -/
inductive PyVal where
  | int (n : Int)
  | str (s : String)
deriving DecidableEq

/-- A Python exception escaping the script uncaught. -/
inductive PyError where
  | keyError (name : String)
  | typeError
  | valueError
  | unicodeError
deriving DecidableEq

/-- How an invocation ends: a normal `exit(code)` (falling off the end of
the script is `exited 0`), an uncaught exception, or — when the busy-wait
exhausts its fuel — no observed termination. -/
inductive ExitKind where
  | exited (code : Int)
  | raised (e : PyError)
  | hung
deriving DecidableEq

/-- One library-function invocation performed by a dispatcher. -/
inductive OpCall where
  | cpCall (source target : String)
  | lsCall (path : String)
  | catCall (path : String)
  | stallCall (arg : PyVal)
  | encodeCall (value : String)
  | decodeCall (value : String)
deriving DecidableEq

/-- The observable outcome of one script invocation: the `output` values
of the Result Records printed to stdout (one entry per `yaml.dump` call),
the other stdout lines (the usage message), the stderr diagnostics, the
library calls made, and how the process ended. -/
structure RunResult where
  records : List String
  usageLines : List String
  stderrLines : List String
  calls : List OpCall
  exit : ExitKind
deriving DecidableEq

/-- `bytes.decode("utf-8")` producing a string; `none` models a raised
`UnicodeDecodeError`. -/
def utf8DecodeStr (l : List Nat) : Option String :=
  String.mk <$> utf8DecodeBytes l

/-- `help.py`'s `cp(source, target, args)`: run the platform copy, discard
its stdout, and produce the `output` value of the Result Record:
"success" on an empty error stream, otherwise "Stderr:\n" plus the decoded
error text. `none` models an uncaught `UnicodeDecodeError`. -/
def cp (exec : List String → ProcResult) (source target : String) (args : List String) :
    Option String :=
  if 0 < (exec (["cp", source, target] ++ args)).err.length then
    (fun e => "Stderr:\n" ++ e) <$> utf8DecodeStr (exec (["cp", source, target] ++ args)).err
  else some "success"

/-- `help.py`'s `ls(path, args)`: the `output` value is the decoded stdout
text, or `<no output>` when stdout is empty, with "\n\nStderr:\n" plus
the decoded error text appended when the error stream is non-empty. -/
def ls (exec : List String → ProcResult) (path : String) (args : List String) :
    Option String := do
  let output ←
    if 0 < (exec (["ls", path] ++ args)).out.length then
      utf8DecodeStr (exec (["ls", path] ++ args)).out
    else pure "<no output>"
  if 0 < (exec (["ls", path] ++ args)).err.length then
    let e ← utf8DecodeStr (exec (["ls", path] ++ args)).err
    pure (output ++ "\n\nStderr:\n" ++ e)
  else
    pure output

/-- `help.py`'s `cat(path, args)`: same contract as `ls` with the
file-read primitive. -/
def cat (exec : List String → ProcResult) (path : String) (args : List String) :
    Option String := do
  let output ←
    if 0 < (exec (["cat", path] ++ args)).out.length then
      utf8DecodeStr (exec (["cat", path] ++ args)).out
    else pure "<no output>"
  if 0 < (exec (["cat", path] ++ args)).err.length then
    let e ← utf8DecodeStr (exec (["cat", path] ++ args)).err
    pure (output ++ "\n\nStderr:\n" ++ e)
  else
    pure output

/-- One run of `stall`'s busy loop `while time.time() - now < n_seconds:
pass`, over the clock oracle: `clock 0` is the initial `now = time.time()`
and `clock k` (for `k ≥ 1`) the `k`-th sample taken by the loop condition.
Returns the index of the sample at which the loop exits, or `none` when
`fuel` samples were not enough to observe the exit. -/
def stallLoop (clock : Nat → ℚ) (n : ℚ) : Nat → Nat → Option Nat
  | 0, _ => none
  | fuel + 1, k =>
      if clock (k + 1) - clock 0 < n then stallLoop clock n fuel (k + 1)
      else some (k + 1)

/-- The outcome of one `stall(n_seconds)` call. -/
inductive StallOutcome where
  | success (exitStep : Nat)
  | typeErr
  | hung
deriving DecidableEq

/-- `help.py`'s `stall(n_seconds)`. With an integer the busy loop runs and
then "success" is printed; with the raw string (the fall-through after a
parse failure) the first comparison `time.time() - now < n_seconds`
raises `TypeError` (`float` against `str`). -/
def stall (clock : Nat → ℚ) (fuel : Nat) (v : PyVal) : StallOutcome :=
  match v with
  | .str _ => .typeErr
  | .int n =>
    match stallLoop clock (n : ℚ) fuel 0 with
    | some k => .success k
    | none => .hung

/-- The value of a non-empty all-digit character sequence; `none`
otherwise. -/
def digitsToNat : List Char → Option Nat
  | [] => none
  | cs =>
    if cs.all (·.isDigit) then
      some (cs.foldl (fun acc c => acc * 10 + (c.toNat - 48)) 0)
    else none

/-- Surrounding whitespace removal, as Python `int` applies to its
argument before parsing. -/
def pyTrim (cs : List Char) : List Char :=
  ((cs.dropWhile Char.isWhitespace).reverse.dropWhile Char.isWhitespace).reverse

/-- Python `int(s)` on a string: optional surrounding whitespace, an
optional sign, then decimal digits; `none` models a raised `ValueError`. -/
def parsePyInt (s : String) : Option Int :=
  match pyTrim s.data with
  | '-' :: rest => (fun n => -(n : Int)) <$> digitsToNat rest
  | '+' :: rest => (fun n => (n : Int)) <$> digitsToNat rest
  | cs => (fun n => (n : Int)) <$> digitsToNat cs

/-- The stderr diagnostic printed by `help.py` when `NSECONDS` does not
parse as an integer. -/
def parseDiag (raw : String) : String :=
  "Could not parse NSECONDS " ++ raw ++ " as int."

/-- The `__main__` dispatch of `help.py`. `exec` is the subprocess oracle,
`clock` and `fuel` drive the busy-wait, `env` is `os.environ` and `argv`
is `sys.argv` (element 0 being the program name). Note the dispatch has no
final `else`: a command other than `cp`, `ls`, `cat`, `stall` falls off
the end of the script, exiting 0 with no output. -/
def helpMain (exec : List String → ProcResult) (clock : Nat → ℚ) (fuel : Nat)
    (env : String → Option String) (argv : List String) : RunResult :=
  if argv.length ≤ 1 then
    ⟨[], [], ["No command specified; nothing to do."], [], .exited (-1)⟩
  else
    if argv.getD 1 "" = "cp" then
      match env "SOURCE" with
      | none => ⟨[], [], [], [], .raised (.keyError "SOURCE")⟩
      | some source =>
        match env "TARGET" with
        | none => ⟨[], [], [], [], .raised (.keyError "TARGET")⟩
        | some target =>
          match cp exec source target [] with
          | none => ⟨[], [], [], [.cpCall source target], .raised .unicodeError⟩
          | some output => ⟨[output], [], [], [.cpCall source target], .exited 0⟩
    else if argv.getD 1 "" = "ls" then
      match env "DIRECTORY" with
      | none => ⟨[], [], [], [], .raised (.keyError "DIRECTORY")⟩
      | some path =>
        match ls exec path [] with
        | none => ⟨[], [], [], [.lsCall path], .raised .unicodeError⟩
        | some output => ⟨[output], [], [], [.lsCall path], .exited 0⟩
    else if argv.getD 1 "" = "cat" then
      match env "FILE" with
      | none => ⟨[], [], [], [], .raised (.keyError "FILE")⟩
      | some path =>
        match cat exec path [] with
        | none => ⟨[], [], [], [.catCall path], .raised .unicodeError⟩
        | some output => ⟨[output], [], [], [.catCall path], .exited 0⟩
    else if argv.getD 1 "" = "stall" then
      match env "NSECONDS" with
      | none => ⟨[], [], [], [], .raised (.keyError "NSECONDS")⟩
      | some raw =>
        match parsePyInt raw with
        | some n =>
          match stall clock fuel (.int n) with
          | .success _ => ⟨["success"], [], [], [.stallCall (.int n)], .exited 0⟩
          | .typeErr => ⟨[], [], [], [.stallCall (.int n)], .raised .typeError⟩
          | .hung => ⟨[], [], [], [.stallCall (.int n)], .hung⟩
        | none =>
          match stall clock fuel (.str raw) with
          | .success _ => ⟨["success"], [], [parseDiag raw], [.stallCall (.str raw)], .exited 0⟩
          | .typeErr => ⟨[], [], [parseDiag raw], [.stallCall (.str raw)], .raised .typeError⟩
          | .hung => ⟨[], [], [parseDiag raw], [.stallCall (.str raw)], .hung⟩
    else
      ⟨[], [], [], [], .exited 0⟩

/-- The `__main__` of `run.py`: usage check, `INPUT` lookup, dispatch to
`encode` or `decode`, one Result Record on success. -/
def runMain (env : String → Option String) (argv : List String) : RunResult :=
  if argv.length < 2 ∨ (argv.getD 1 "" ≠ "decode" ∧ argv.getD 1 "" ≠ "encode") then
    ⟨[], ["Usage: " ++ argv.getD 0 "" ++ " encode|decode <value>"], [], [], .exited 1⟩
  else
    match env "INPUT" with
    | none => ⟨[], [], [], [], .raised (.keyError "INPUT")⟩
    | some value =>
      if argv.getD 1 "" = "decode" then
        match decode value with
        | none => ⟨[], [], [], [.decodeCall value], .raised .valueError⟩
        | some output => ⟨[output], [], [], [.decodeCall value], .exited 0⟩
      else
        ⟨[encode value], [], [], [.encodeCall value], .exited 0⟩

/-- A subprocess oracle whose commands produce no output at all. -/
def noProc : List String → ProcResult := fun _ => ⟨[], []⟩

/-- A clock that never advances. -/
def zeroClock : Nat → ℚ := fun _ => 0

/-- An empty environment. -/
def emptyEnv : String → Option String := fun _ => none

/-- An environment holding exactly one variable. -/
def oneEnv (key value : String) : String → Option String :=
  fun k => if k = key then some value else none

/-! ## Round-trip lemmas for base64 and UTF-8 -/

theorem char_range (c : Char) : c.toNat < 0xD800 ∨ (0xE000 ≤ c.toNat ∧ c.toNat < 0x110000) := by
  have h := c.valid
  show c.val.toNat < _ ∨ (_ ≤ c.val.toNat ∧ c.val.toNat < _)
  rcases h with h | h
  · exact Or.inl h
  · exact Or.inr ⟨by omega, h.2⟩

theorem utf8EncodeChar_lt256 (c : Char) : ∀ b ∈ utf8EncodeChar c, b < 256 := by
  have hval := char_range c
  intro b hb
  simp only [utf8EncodeChar] at hb
  split_ifs at hb <;> simp at hb <;> omega

theorem utf8Encode_lt256 (s : List Char) : ∀ b ∈ utf8Encode s, b < 256 := by
  intro b hb
  simp only [utf8Encode, List.mem_flatMap] at hb
  obtain ⟨c, -, hc⟩ := hb
  exact utf8EncodeChar_lt256 c b hc

theorem utf8Run_encodeChar (c : Char) (rest : List Nat) :
    utf8Run .lead (utf8EncodeChar c ++ rest) = (c :: ·) <$> utf8Run .lead rest := by
  have hval := char_range c
  have hofn := Char.ofNat_toNat c
  by_cases h1 : c.toNat < 0x80
  · simp only [utf8EncodeChar, if_pos h1, List.cons_append, List.nil_append]
    rw [utf8Run, if_pos h1, hofn]
  · by_cases h2 : c.toNat < 0x800
    · simp only [utf8EncodeChar, if_neg h1, if_pos h2, List.cons_append, List.nil_append]
      rw [utf8Run, if_neg (by omega), if_neg (by omega), if_pos (by omega)]
      rw [utf8Run, if_pos (by omega), if_pos rfl, if_pos (by omega)]
      have e : (0xC0 + c.toNat / 64 - 0xC0) * 64 + (0x80 + c.toNat % 64 - 0x80) = c.toNat := by
        omega
      rw [e, hofn]
    · by_cases h3 : c.toNat < 0x10000
      · simp only [utf8EncodeChar, if_neg h1, if_neg h2, if_pos h3, List.cons_append,
          List.nil_append]
        rw [utf8Run, if_neg (by omega), if_neg (by omega), if_neg (by omega), if_pos (by omega)]
        rw [utf8Run, if_pos (by omega), if_neg (by omega)]
        rw [utf8Run, if_pos (by omega), if_pos rfl, if_pos (by omega)]
        have e : ((0xE0 + c.toNat / 4096 - 0xE0) * 64 + (0x80 + c.toNat / 64 % 64 - 0x80)) * 64 +
            (0x80 + c.toNat % 64 - 0x80) = c.toNat := by omega
        rw [e, hofn]
      · simp only [utf8EncodeChar, if_neg h1, if_neg h2, if_neg h3, List.cons_append,
          List.nil_append]
        rw [utf8Run, if_neg (by omega), if_neg (by omega), if_neg (by omega), if_neg (by omega),
          if_pos (by omega)]
        rw [utf8Run, if_pos (by omega), if_neg (by omega)]
        rw [utf8Run, if_pos (by omega), if_neg (by omega)]
        rw [utf8Run, if_pos (by omega), if_pos rfl, if_pos (by omega)]
        have e : (((0xF0 + c.toNat / 262144 - 0xF0) * 64 + (0x80 + c.toNat / 4096 % 64 - 0x80)) *
            64 + (0x80 + c.toNat / 64 % 64 - 0x80)) * 64 + (0x80 + c.toNat % 64 - 0x80) =
            c.toNat := by omega
        rw [e, hofn]

theorem utf8_roundtrip (s : List Char) : utf8DecodeBytes (utf8Encode s) = some s := by
  unfold utf8DecodeBytes
  induction s with
  | nil => rfl
  | cons c cs ih =>
    have e : utf8Encode (c :: cs) = utf8EncodeChar c ++ utf8Encode cs := by
      simp [utf8Encode]
    rw [e, utf8Run_encodeChar, ih]
    rfl

theorem sextetVal_sextet (k : Nat) (hk : k < 64) : sextetVal (sextet k) = some k := by
  revert hk
  have : ∀ m, m < 64 → sextetVal (sextet m) = some m := by decide
  exact this k

theorem sextet_ne_newline (k : Nat) : sextet k ≠ '\n' := by
  rcases Nat.lt_or_ge k 64 with h | h
  · have : ∀ m, m < 64 → sextet m ≠ '\n' := by decide
    exact this k h
  · unfold sextet
    rw [List.getD_eq_default]
    · decide
    · simpa [b64Alphabet] using h

theorem sextet_ne_pad (k : Nat) (hk : k < 64) : sextet k ≠ '=' := by
  revert hk
  have : ∀ m, m < 64 → sextet m ≠ '=' := by decide
  exact this k

theorem b64EncodeBytes_no_newline (bs : List Nat) :
    ∀ c ∈ b64EncodeBytes bs, c ≠ '\n' := by
  induction bs using b64EncodeBytes.induct with
  | case1 => intro c hc; simp [b64EncodeBytes] at hc
  | case2 a =>
    intro c hc
    simp [b64EncodeBytes] at hc
    rcases hc with rfl | rfl | rfl
    · exact sextet_ne_newline _
    · exact sextet_ne_newline _
    · decide
  | case3 a b =>
    intro c hc
    simp [b64EncodeBytes] at hc
    rcases hc with rfl | rfl | rfl | rfl
    · exact sextet_ne_newline _
    · exact sextet_ne_newline _
    · exact sextet_ne_newline _
    · decide
  | case4 a b c rest ih =>
    intro x hx
    simp [b64EncodeBytes] at hx
    rcases hx with rfl | rfl | rfl | rfl | h
    · exact sextet_ne_newline _
    · exact sextet_ne_newline _
    · exact sextet_ne_newline _
    · exact sextet_ne_newline _
    · exact ih x h

theorem b64_roundtrip (bs : List Nat) (hbs : ∀ b ∈ bs, b < 256) :
    b64DecodeChars (b64EncodeBytes bs) = some bs := by
  induction bs using b64EncodeBytes.induct with
  | case1 => rfl
  | case2 a =>
    have ha : a < 256 := hbs a (by simp)
    simp only [b64EncodeBytes, b64DecodeChars]
    rw [if_pos (by simp), sextetVal_sextet _ (by omega), sextetVal_sextet _ (by omega)]
    simp
    omega
  | case3 a b =>
    have ha : a < 256 := hbs a (by simp)
    have hb : b < 256 := hbs b (by simp)
    simp only [b64EncodeBytes, b64DecodeChars]
    rw [if_neg (by rintro ⟨h, -⟩; exact sextet_ne_pad _ (by omega) h), if_pos (by simp),
      sextetVal_sextet _ (by omega), sextetVal_sextet _ (by omega),
      sextetVal_sextet _ (by omega)]
    simp
    constructor <;> omega
  | case4 a b c rest ih =>
    have ha : a < 256 := hbs a (by simp)
    have hb : b < 256 := hbs b (by simp)
    have hc : c < 256 := hbs c (by simp)
    have hrest : ∀ x ∈ rest, x < 256 := fun x hx => hbs x (by simp [hx])
    simp only [b64EncodeBytes, b64DecodeChars]
    rw [if_neg (by rintro ⟨h, -⟩; exact sextet_ne_pad _ (by omega) h),
      if_neg (by rintro ⟨h, -⟩; exact sextet_ne_pad _ (by omega) h),
      sextetVal_sextet _ (by omega), sextetVal_sextet _ (by omega),
      sextetVal_sextet _ (by omega), sextetVal_sextet _ (by omega), ih hrest]
    simp
    refine ⟨by omega, by omega, by omega⟩

/-- C7: Round-trip law: for every UTF-8 string `s`,
`decode (encode s) = some s`, where `encode` base64-encodes the UTF-8
bytes of `s` and `decode` strips all newline characters, base64-decodes
the remainder, and UTF-8-decodes the resulting bytes. -/
theorem c7_decode_encode_roundtrip (s : String) : decode (encode s) = some s := by
  unfold decode encode stripNewlines
  have hfilter : (b64EncodeBytes (utf8Encode s.data)).filter (fun c => c != '\n')
      = b64EncodeBytes (utf8Encode s.data) := by
    rw [List.filter_eq_self]
    intro a ha
    simpa using b64EncodeBytes_no_newline _ a ha
  have hmk : String.mk s.data = s := by cases s; rfl
  have hb64 := b64_roundtrip (utf8Encode s.data) (utf8Encode_lt256 s.data)
  have hutf8 := utf8_roundtrip s.data
  simp [hfilter, hb64, hutf8, hmk, String.toList]

/-! ## Claims about the two dispatchers -/

/-- C9: When the encode/decode runner is invoked with a missing command
argument or a command name other than `encode` or `decode`, it prints a
usage message to standard output and terminates with exit status 1,
without printing a Result Record. -/
theorem c9_usage_on_bad_command (env : String → Option String) (argv : List String)
    (h : argv.length < 2 ∨ (argv.getD 1 "" ≠ "decode" ∧ argv.getD 1 "" ≠ "encode")) :
    runMain env argv =
      ⟨[], ["Usage: " ++ argv.getD 0 "" ++ " encode|decode <value>"], [], [], .exited 1⟩ := by
  unfold runMain
  rw [if_pos h]

theorem c9_witness :
    runMain emptyEnv ["run.py", "rot13"] =
      ⟨[], ["Usage: run.py encode|decode <value>"], [], [], .exited 1⟩ :=
  c9_usage_on_bad_command emptyEnv ["run.py", "rot13"] (by decide)

/-- C10: When the encode/decode runner is invoked with a valid command
(`encode` or `decode`) but the `INPUT` environment variable is unset, the
environment lookup raises an uncaught `KeyError`, so the process
terminates abnormally without printing either a usage line or a Result
Record. -/
theorem c10_missing_input_keyerror (env : String → Option String) (argv : List String)
    (h2 : 2 ≤ argv.length) (hcmd : argv.getD 1 "" = "decode" ∨ argv.getD 1 "" = "encode")
    (hinput : env "INPUT" = none) :
    runMain env argv = ⟨[], [], [], [], .raised (.keyError "INPUT")⟩ := by
  unfold runMain
  rw [if_neg, hinput]
  rintro (h | ⟨hd, he⟩)
  · omega
  · rcases hcmd with h | h
    · exact hd h
    · exact he h

theorem c10_witness :
    runMain emptyEnv ["run.py", "encode"] = ⟨[], [], [], [], .raised (.keyError "INPUT")⟩ :=
  c10_missing_input_keyerror emptyEnv ["run.py", "encode"] (by decide) (Or.inr rfl) rfl

/-- C1 (amended): When the operation runner is invoked with NO command
argument at all, it reports the "no command" diagnostic on stderr and
terminates with the non-zero status -1, without printing a Result Record;
but when it is invoked with a command argument that is not one of `cp`,
`ls`, `cat`, `stall`, the dispatch falls through silently: no diagnostic,
no Result Record, and a normal exit with status 0. -/
theorem c1_no_command_vs_unknown_command (exec : List String → ProcResult) (clock : Nat → ℚ)
    (fuel : Nat) (env : String → Option String) (argv : List String) :
    (argv.length ≤ 1 → helpMain exec clock fuel env argv =
      ⟨[], [], ["No command specified; nothing to do."], [], .exited (-1)⟩) ∧
    (1 < argv.length → argv.getD 1 "" ∉ (["cp", "ls", "cat", "stall"] : List String) →
      helpMain exec clock fuel env argv = ⟨[], [], [], [], .exited 0⟩) := by
  constructor
  · intro h
    unfold helpMain
    rw [if_pos h]
  · intro h hmem
    simp only [List.mem_cons, List.not_mem_nil, or_false] at hmem
    push_neg at hmem
    obtain ⟨h1, h2, h3, h4⟩ := hmem
    unfold helpMain
    rw [if_neg (by omega), if_neg h1, if_neg h2, if_neg h3, if_neg h4]

theorem c1_witness :
    helpMain noProc zeroClock 0 emptyEnv ["help.py"] =
      ⟨[], [], ["No command specified; nothing to do."], [], .exited (-1)⟩ ∧
    helpMain noProc zeroClock 0 emptyEnv ["help.py", "chmod"] = ⟨[], [], [], [], .exited 0⟩ :=
  ⟨(c1_no_command_vs_unknown_command noProc zeroClock 0 emptyEnv ["help.py"]).1 (by decide),
   (c1_no_command_vs_unknown_command noProc zeroClock 0 emptyEnv ["help.py", "chmod"]).2
     (by decide) (by decide)⟩

/-- C1 counterexample: invoked with the unrecognized command "chmod", the
operation runner exits with status 0 (not non-zero) and prints no
diagnostic at all, refuting the claimed "no command" diagnostic and
non-zero exit for every unknown command argument. -/
theorem c1_counterexample :
    (helpMain noProc zeroClock 0 emptyEnv ["help.py", "chmod"]).exit = .exited 0 ∧
    (helpMain noProc zeroClock 0 emptyEnv ["help.py", "chmod"]).stderrLines = [] ∧
    (helpMain noProc zeroClock 0 emptyEnv ["help.py", "chmod"]).records = [] :=
  ⟨rfl, rfl, rfl⟩

/-- C3 (amended): For every command of the operation runner, if a required
environment variable is missing, the corresponding operation is indeed not
attempted (no library call is made and no Result Record is printed), but
the process does crash: the lookup raises an uncaught `KeyError` naming
the missing variable. -/
theorem c3_missing_env_keyerror (exec : List String → ProcResult) (clock : Nat → ℚ)
    (fuel : Nat) (env : String → Option String) (argv : List String) (h1 : 1 < argv.length) :
    (argv.getD 1 "" = "cp" → env "SOURCE" = none →
      helpMain exec clock fuel env argv = ⟨[], [], [], [], .raised (.keyError "SOURCE")⟩) ∧
    (argv.getD 1 "" = "cp" → ∀ src, env "SOURCE" = some src → env "TARGET" = none →
      helpMain exec clock fuel env argv = ⟨[], [], [], [], .raised (.keyError "TARGET")⟩) ∧
    (argv.getD 1 "" = "ls" → env "DIRECTORY" = none →
      helpMain exec clock fuel env argv = ⟨[], [], [], [], .raised (.keyError "DIRECTORY")⟩) ∧
    (argv.getD 1 "" = "cat" → env "FILE" = none →
      helpMain exec clock fuel env argv = ⟨[], [], [], [], .raised (.keyError "FILE")⟩) ∧
    (argv.getD 1 "" = "stall" → env "NSECONDS" = none →
      helpMain exec clock fuel env argv = ⟨[], [], [], [], .raised (.keyError "NSECONDS")⟩) := by
  refine ⟨?_, ?_, ?_, ?_, ?_⟩
  · intro hcmd henv
    unfold helpMain
    rw [if_neg (by omega), if_pos hcmd, henv]
  · intro hcmd src hsrc henv
    unfold helpMain
    rw [if_neg (by omega), if_pos hcmd, hsrc, henv]
  · intro hcmd henv
    unfold helpMain
    rw [if_neg (by omega), if_neg (by rw [hcmd]; decide), if_pos hcmd, henv]
  · intro hcmd henv
    unfold helpMain
    rw [if_neg (by omega), if_neg (by rw [hcmd]; decide), if_neg (by rw [hcmd]; decide),
      if_pos hcmd, henv]
  · intro hcmd henv
    unfold helpMain
    rw [if_neg (by omega), if_neg (by rw [hcmd]; decide), if_neg (by rw [hcmd]; decide),
      if_neg (by rw [hcmd]; decide), if_pos hcmd, henv]

theorem c3_witness :
    helpMain noProc zeroClock 0 emptyEnv ["help.py", "cp"] =
      ⟨[], [], [], [], .raised (.keyError "SOURCE")⟩ :=
  (c3_missing_env_keyerror noProc zeroClock 0 emptyEnv ["help.py", "cp"] (by decide)).1
    rfl rfl

/-- C3 counterexample: with command `cp` and `SOURCE` unset, the operation
is not attempted (no library call), but the process terminates with an
uncaught `KeyError` rather than avoiding an uncontrolled crash. -/
theorem c3_counterexample :
    (helpMain noProc zeroClock 0 emptyEnv ["help.py", "cp"]).calls = [] ∧
    (helpMain noProc zeroClock 0 emptyEnv ["help.py", "cp"]).exit =
      .raised (.keyError "SOURCE") :=
  ⟨rfl, rfl⟩

/-- C4: When the stall command's `NSECONDS` environment value does not
parse as an integer, a parse diagnostic is printed to standard error and
the stall operation is nevertheless still invoked with the raw unparsed
string value instead of aborting. -/
theorem c4_stall_raw_value (exec : List String → ProcResult) (clock : Nat → ℚ) (fuel : Nat)
    (env : String → Option String) (argv : List String) (raw : String)
    (h1 : 1 < argv.length) (hcmd : argv.getD 1 "" = "stall")
    (henv : env "NSECONDS" = some raw) (hparse : parsePyInt raw = none) :
    (helpMain exec clock fuel env argv).stderrLines = [parseDiag raw] ∧
    (helpMain exec clock fuel env argv).calls = [.stallCall (.str raw)] := by
  unfold helpMain
  rw [if_neg (by omega), if_neg (by rw [hcmd]; decide), if_neg (by rw [hcmd]; decide),
    if_neg (by rw [hcmd]; decide), if_pos hcmd, henv]
  simp only [hparse]
  exact ⟨rfl, rfl⟩

theorem helpMain_record_count (exec : List String → ProcResult) (clock : Nat → ℚ) (fuel : Nat)
    (env : String → Option String) (argv : List String) :
    (helpMain exec clock fuel env argv).records.length ≤ 1 ∧
    ((helpMain exec clock fuel env argv).records.length = 1 ↔
      (helpMain exec clock fuel env argv).calls ≠ [] ∧
      ∃ c, (helpMain exec clock fuel env argv).exit = .exited c) := by
  unfold helpMain
  repeat' split
  all_goals simp

theorem runMain_record_count (env : String → Option String) (argv : List String) :
    (runMain env argv).records.length ≤ 1 ∧
    ((runMain env argv).records.length = 1 ↔
      (runMain env argv).calls ≠ [] ∧ ∃ c, (runMain env argv).exit = .exited c) := by
  unfold runMain
  repeat' split
  all_goals simp

/-- C2 (amended): Each invocation of either script emits AT MOST one
Result Record, via at most one serialization call; it emits exactly one
precisely when a dispatched library operation ran and the process then
exited normally, and zero records otherwise — when usage validation
fails, when a required environment lookup raises `KeyError`, when the
dispatched operation itself raises, or when an unknown command falls
through the dispatch. -/
theorem c2_at_most_one_record (exec : List String → ProcResult) (clock : Nat → ℚ) (fuel : Nat)
    (envH envR : String → Option String) (argvH argvR : List String) :
    ((helpMain exec clock fuel envH argvH).records.length ≤ 1 ∧
      ((helpMain exec clock fuel envH argvH).records.length = 1 ↔
        (helpMain exec clock fuel envH argvH).calls ≠ [] ∧
        ∃ c, (helpMain exec clock fuel envH argvH).exit = .exited c)) ∧
    ((runMain envR argvR).records.length ≤ 1 ∧
      ((runMain envR argvR).records.length = 1 ↔
        (runMain envR argvR).calls ≠ [] ∧ ∃ c, (runMain envR argvR).exit = .exited c)) :=
  ⟨helpMain_record_count exec clock fuel envH argvH, runMain_record_count envR argvR⟩

/-- C2 counterexample: invoking the operation runner with no command
argument emits zero Result Records, refuting the claimed "never zero
records" for every invocation. -/
theorem c2_counterexample :
    (helpMain noProc zeroClock 0 emptyEnv ["help.py"]).records.length = 0 := rfl

theorem stallLoop_exit_elapsed (clock : Nat → ℚ) (n : ℚ) :
    ∀ (fuel k j : Nat), stallLoop clock n fuel k = some j → n ≤ clock j - clock 0 := by
  intro fuel
  induction fuel with
  | zero =>
    intro k j h
    simp [stallLoop] at h
  | succ f ih =>
    intro k j h
    rw [stallLoop] at h
    split_ifs at h with hc
    · exact ih _ _ h
    · injection h with h
      subst h
      exact not_lt.mp hc

/-- C8: the busy-wait loop of `stall(n)` returns control only at a clock
sample at least `n` seconds after the initial sample (for any clock and
any fuel); for `n ≤ 0` — in particular n = 0 — it returns at the very
first sample, i.e. immediately; and when the loop exits, the dispatcher
prints a Result Record with `output` = "success" and exits 0. -/
theorem c8_stall_busy_wait (clock : Nat → ℚ) (fuel : Nat) :
    (∀ (n : ℚ) (k : Nat), stallLoop clock n fuel 0 = some k → n ≤ clock k - clock 0) ∧
    (Monotone clock → 0 < fuel → ∀ n : ℚ, n ≤ 0 → stallLoop clock n fuel 0 = some 1) ∧
    (∀ (exec : List String → ProcResult) (env : String → Option String) (argv : List String)
        (raw : String) (n : Int) (k : Nat),
      1 < argv.length → argv.getD 1 "" = "stall" → env "NSECONDS" = some raw →
      parsePyInt raw = some n → stallLoop clock (n : ℚ) fuel 0 = some k →
      (helpMain exec clock fuel env argv).records = ["success"] ∧
      (helpMain exec clock fuel env argv).exit = .exited 0) := by
  refine ⟨fun n k h => stallLoop_exit_elapsed clock n fuel 0 k h, ?_, ?_⟩
  · intro hmono hfuel n hn
    cases fuel with
    | zero => omega
    | succ f =>
      rw [stallLoop, if_neg]
      intro hlt
      have h01 : clock 0 ≤ clock 1 := hmono (Nat.zero_le 1)
      linarith
  · intro exec env argv raw n k h1 hcmd henv hparse hloop
    unfold helpMain
    rw [if_neg (by omega), if_neg (by rw [hcmd]; decide), if_neg (by rw [hcmd]; decide),
      if_neg (by rw [hcmd]; decide), if_pos hcmd, henv]
    simp only [hparse]
    unfold stall
    simp [hloop]

theorem c8_witness :
    (((0 : Int) : ℚ)) ≤ zeroClock 1 - zeroClock 0 ∧
    stallLoop zeroClock (((0 : Int) : ℚ)) 1 0 = some 1 ∧
    (helpMain noProc zeroClock 1 (oneEnv "NSECONDS" "0") ["help.py", "stall"]).records =
      ["success"] ∧
    (helpMain noProc zeroClock 1 (oneEnv "NSECONDS" "0") ["help.py", "stall"]).exit =
      .exited 0 := by
  have h := c8_stall_busy_wait zeroClock 1
  have hloop : stallLoop zeroClock (((0 : Int) : ℚ)) 1 0 = some 1 :=
    h.2.1 (fun _ _ _ => le_rfl) (by omega) _ (by norm_num)
  have hrec := h.2.2 noProc (oneEnv "NSECONDS" "0") ["help.py", "stall"] "0" 0 1
    (by decide) rfl rfl (by decide) hloop
  exact ⟨h.1 _ 1 hloop, hloop, hrec.1, hrec.2⟩

/-- C5: For every `cp` invocation: if the copy subprocess's captured error
stream is empty, the Result Record's `output` value equals exactly
"success"; if the error stream is non-empty, `output` equals "Stderr:\n"
followed by the error text decoded as UTF-8; and the copy's own standard
output never appears in the record (the result depends only on the error
stream). -/
theorem c5_cp_output (exec : List String → ProcResult) (source target : String)
    (args : List String) (eText : String)
    (herr : utf8DecodeStr (exec (["cp", source, target] ++ args)).err = some eText) :
    cp exec source target args =
      some (if 0 < (exec (["cp", source, target] ++ args)).err.length
        then "Stderr:\n" ++ eText else "success") ∧
    ∀ exec2 : List String → ProcResult,
      (∀ cmd, (exec2 cmd).err = (exec cmd).err) →
      cp exec2 source target args = cp exec source target args := by
  constructor
  · unfold cp
    split_ifs with h
    · rw [herr]
      rfl
    · rfl
  · intro exec2 h2
    unfold cp
    rw [h2]

theorem c5_witness :
    cp (fun _ => ⟨[], [120]⟩) "a" "b" [] = some ("Stderr:\n" ++ "x") ∧
    cp (fun _ => ⟨[104, 105], [120]⟩) "a" "b" [] = cp (fun _ => ⟨[], [120]⟩) "a" "b" [] := by
  have h := c5_cp_output (fun _ => ⟨[], [120]⟩) "a" "b" [] "x" (by decide)
  exact ⟨h.1, h.2 (fun _ => ⟨[104, 105], [120]⟩) (fun _ => rfl)⟩

/-- C6: For every `ls` and every `cat` invocation: the Result Record's
`output` value equals the subprocess's decoded standard-output text when
that text is non-empty, and the literal marker `<no output>` when it is
empty; and whenever the captured error stream is non-empty, the string
"\n\nStderr:\n" followed by the decoded error text is appended to that
output. -/
theorem c6_ls_cat_output (exec : List String → ProcResult) (pathL pathC : String)
    (args : List String) (oL eL oC eC : String)
    (houtL : utf8DecodeStr (exec (["ls", pathL] ++ args)).out = some oL)
    (herrL : utf8DecodeStr (exec (["ls", pathL] ++ args)).err = some eL)
    (houtC : utf8DecodeStr (exec (["cat", pathC] ++ args)).out = some oC)
    (herrC : utf8DecodeStr (exec (["cat", pathC] ++ args)).err = some eC) :
    ls exec pathL args = some
      ((if 0 < (exec (["ls", pathL] ++ args)).out.length then oL else "<no output>") ++
        (if 0 < (exec (["ls", pathL] ++ args)).err.length
          then "\n\nStderr:\n" ++ eL else "")) ∧
    cat exec pathC args = some
      ((if 0 < (exec (["cat", pathC] ++ args)).out.length then oC else "<no output>") ++
        (if 0 < (exec (["cat", pathC] ++ args)).err.length
          then "\n\nStderr:\n" ++ eC else "")) := by
  simp only [List.cons_append, List.nil_append] at houtL herrL houtC herrC
  constructor
  · unfold ls
    split_ifs <;>
      simp [houtL, herrL, String.append_assoc, String.append_empty]
  · unfold cat
    split_ifs <;>
      simp [houtC, herrC, String.append_assoc, String.append_empty]

theorem c6_witness :
    ls (fun cmd => if cmd.getD 0 "" = "ls" then ⟨[104], []⟩ else ⟨[], [120]⟩) "d" [] =
      some ("h" ++ "") ∧
    cat (fun cmd => if cmd.getD 0 "" = "ls" then ⟨[104], []⟩ else ⟨[], [120]⟩) "f" [] =
      some ("<no output>" ++ ("\n\nStderr:\n" ++ "x")) := by
  have h := c6_ls_cat_output
    (fun cmd => if cmd.getD 0 "" = "ls" then ⟨[104], []⟩ else ⟨[], [120]⟩)
    "d" "f" [] "h" "" "" "x" (by decide) (by decide) (by decide) (by decide)
  exact ⟨h.1, h.2⟩

theorem c4_witness :
    (helpMain noProc zeroClock 0 (oneEnv "NSECONDS" "abc") ["help.py", "stall"]).stderrLines =
      [parseDiag "abc"] ∧
    (helpMain noProc zeroClock 0 (oneEnv "NSECONDS" "abc") ["help.py", "stall"]).calls =
      [.stallCall (.str "abc")] :=
  c4_stall_raw_value noProc zeroClock 0 (oneEnv "NSECONDS" "abc") ["help.py", "stall"] "abc"
    (by decide) rfl rfl (by decide)

end Brane
